import Mathlib

/-!
Verification of the libsmu host-side library specification against its
source (the public header `include/libsmu/libsmu.hpp` and the `pysmu`
calibration CLI).  Constants, inline member functions and the CLI are
embedded directly from the source; method bodies that the repository does
not ship (pure-virtual device methods, Session method bodies) are modelled
from the spec and marked as such in their doc comments.
-/

namespace Libsmu

/-! ## Device allow-lists (libsmu.hpp lines 30-40) -/

/-- Constant `SUPPORTED_DEVICES` from libsmu.hpp: `{{0x0456, 0xcee2}, {0x064b, 0x784c}}`,
each entry a `{vendor_id, product_id}` pair. -/
def SUPPORTED_DEVICES : List (List ℕ) :=
  [[0x0456, 0xcee2], [0x064b, 0x784c]]

/-- Constant `SAMBA_DEVICES` from libsmu.hpp: `{{0x03eb, 0x6124}}`, devices in SAM-BA
bootloader mode. -/
def SAMBA_DEVICES : List (List ℕ) :=
  [[0x03eb, 0x6124]]

/-- Modelled from the spec: the discovery-time support check
(`Session::probe_device`'s match against the allow-list is not in src, only
the list itself is): a device is supported exactly when its
`{vendor_id, product_id}` pair is an entry of `SUPPORTED_DEVICES`. -/
def is_supported (vid pid : ℕ) : Bool :=
  SUPPORTED_DEVICES.any (fun e => e = [vid, pid])

/-! ## Queue size and default rate (libsmu.hpp lines 130, 339) -/

/-- Default of `Session::m_queue_size` from libsmu.hpp line 130: `10000`. -/
def m_queue_size : ℕ := 10000

/-- Base implementation of `Device::get_default_rate()` from libsmu.hpp line
339: `return 100000;`. -/
def get_default_rate : ℤ := 100000

/-! ## Session cancellation flag (libsmu.hpp lines 196, 236)

`m_cancellation` is an `unsigned` initialised to 0; the accessor
`cancelled()` is defined inline in the header. -/

/-- Accessor `Session::cancelled()` from libsmu.hpp line 196:
`return m_cancellation != 0;`. -/
def cancelled (m_cancellation : ℕ) : Bool :=
  m_cancellation != 0

/-- Session-level events that touch `m_cancellation`. -/
inductive SessionEvent where
  | startSuccess   -- a successful start() of a new capture
  | cancelReq      -- an explicit cancel() or a cancelled USB transaction
  | stopSuccess    -- the session stopped successfully without cancellation
  | otherOp        -- any other session operation
  deriving DecidableEq, Repr

/-- Modelled from the spec: how `m_cancellation` evolves (the bodies of
`Session::start` and `Session::cancel` are not in src).  A cancellation
request makes the counter non-zero; a successful `start()` resets it; no
other operation changes it. -/
def sessionStep (c : ℕ) : SessionEvent → ℕ
  | .startSuccess => 0
  | .cancelReq => c + 1
  | .stopSuccess => c
  | .otherOp => c

/-- The cancellation counter after a trace of session events, starting from
the constructed state (`m_cancellation = 0`, libsmu.hpp line 236). -/
def runSession (evs : List SessionEvent) : ℕ :=
  evs.foldl sessionStep 0

end Libsmu

namespace Pysmu

/-! ## The pysmu calibration CLI (src/bindings/python/bin/pysmu)

The script is embedded at the level of its control flow.  The argparse
namespace built at lines 43-59 has exactly the destinations
`display_calibration`, `reset_calibration`, `write_calibration` and
`calibrate`; the main body then accesses `options.write`, `options.reset`,
`options.create` and `options.show`. -/

/-- The attribute values of the parsed-options namespace. -/
inductive AttrVal where
  | boolVal (b : Bool)
  | strVal (s : Option String)
  deriving DecidableEq, Repr

/-- The argparse namespace from pysmu lines 43-59: destinations are derived
from the long option names `--display-calibration`, `--reset-calibration`,
`--write-calibration`, `--calibrate`. -/
structure Options where
  display_calibration : Bool
  reset_calibration : Bool
  write_calibration : Option String
  calibrate : Option String
  deriving DecidableEq, Repr

/-- Python attribute lookup on the options namespace: only the four argparse
destinations exist; any other name raises AttributeError (modelled as
`none`). -/
def getattr (o : Options) : String → Option AttrVal
  | "display_calibration" => some (.boolVal o.display_calibration)
  | "reset_calibration" => some (.boolVal o.reset_calibration)
  | "write_calibration" => some (.strVal o.write_calibration)
  | "calibrate" => some (.strVal o.calibrate)
  | _ => none

/-- Outcome of a pysmu invocation. -/
inductive Outcome where
  | exited (code : ℕ) (stderrDiag : Bool)  -- sys.exit; was a diagnostic written to stderr
  | crashed (exc : String)                 -- uncaught Python exception
  deriving DecidableEq, Repr

/-- pysmu `__main__` body, lines 61-99: the device-count checks write to
stderr and exit 1; with exactly one device the script evaluates
`options.write` (line 84), an attribute that the argparse namespace does
not define. -/
def pysmu_main (numDevices : ℕ) (opts : Options) : Outcome :=
  if numDevices = 0 then
    -- "No supported devices are plugged in." to stderr, sys.exit(1)
    .exited 1 true
  else if numDevices > 1 then
    -- "Multiple devices are attached, ..." to stderr, sys.exit(1)
    .exited 1 true
  else
    match getattr opts "write" with
    | none => .crashed "AttributeError"
    | some _ => .exited 0 false

/-- The options namespace produced by `pysmu` with no flags:
`display_calibration` defaults to True, the rest to their argparse
defaults. -/
def defaultOptions : Options :=
  { display_calibration := true
    reset_calibration := false
    write_calibration := none
    calibrate := none }

/-! ## get_value (pysmu lines 30-37)

`raw_input` followed by `float(...)`: each operator entry is modelled by
the result of that conversion, `none` for a ValueError. -/

/-- Function `get_value` from pysmu lines 30-37: on ValueError it prints
"Invalid decimal value!" and recurses; otherwise it returns the converted
value.  The list is the stream of operator entries; an exhausted stream
means the script is still blocked at the prompt (`none`). -/
def get_value : List (Option ℚ) → Option ℚ
  | [] => none
  | none :: rest => get_value rest
  | some v :: _ => some v

end Pysmu

namespace Libsmu

/-! ## Per-device sample counters (libsmu.hpp lines 417-422)

The counters are declared and zero-initialised in the header; the transfer
handlers that advance them live outside src and are modelled from the
spec. -/

/-- Per-device capture-counter state: `m_requested_sampleno`,
`m_in_sampleno`, `m_out_sampleno` (libsmu.hpp lines 417-422, all
zero-initialised). -/
structure CaptureState where
  m_requested_sampleno : ℕ
  m_in_sampleno : ℕ
  m_out_sampleno : ℕ
  deriving DecidableEq, Repr

/-- The state at the start of a capture requesting `n` samples
(`n = 0` means continuous mode). -/
def captureStart (n : ℕ) : CaptureState :=
  { m_requested_sampleno := n, m_in_sampleno := 0, m_out_sampleno := 0 }

/-- A transfer-completion event: a chunk of `k` samples received on the
inbound path, or submitted on the outbound path. -/
inductive XferEvent where
  | recv (k : ℕ)
  | send (k : ℕ)
  deriving DecidableEq, Repr

/-- Modelled from the spec: how the transfer handlers (not in src) advance
the counters.  In bounded mode the device never accounts past the request:
a chunk is clipped at `m_requested_sampleno`; in continuous mode
(`m_requested_sampleno = 0`) the counters grow without bound. -/
def xferStep (s : CaptureState) : XferEvent → CaptureState
  | .recv k =>
    { s with m_in_sampleno :=
        if s.m_requested_sampleno = 0 then s.m_in_sampleno + k
        else min (s.m_in_sampleno + k) s.m_requested_sampleno }
  | .send k =>
    { s with m_out_sampleno :=
        if s.m_requested_sampleno = 0 then s.m_out_sampleno + k
        else min (s.m_out_sampleno + k) s.m_requested_sampleno }

/-- The counter state after a trace of transfer events in a capture
requesting `n` samples. -/
def runCapture (n : ℕ) (evs : List XferEvent) : CaptureState :=
  evs.foldl xferStep (captureStart n)

/-- Modelled from the spec: a device's capture is complete once both
counters have reached the requested target (never spontaneously in
continuous mode). -/
def captureDone (s : CaptureState) : Bool :=
  s.m_requested_sampleno != 0 &&
    s.m_requested_sampleno ≤ s.m_in_sampleno &&
    s.m_requested_sampleno ≤ s.m_out_sampleno

/-! ## Inbound sample queue and Device::read (libsmu.hpp lines 307-315)

`read` is pure virtual in the header; the header documents its contract
(`@throws std::system_error of EBUSY if sample overflows have occurred`);
the queue mechanics are modelled from the spec. -/

/-- The inbound FIFO queue of a device, together with the flag recording
that samples were dropped (overflow) since the previous read.  The queue
front is the oldest sample; samples are natural-number stamps standing for
four-lane sample rows. -/
structure InQueue where
  q : List ℕ
  overflowed : Bool
  deriving DecidableEq, Repr

/-- Modelled from the spec: the inbound producer (USB completion handler,
not in src).  The queue is bounded at `qsize`; a sample arriving at a full
queue is dropped and the overflow flag is set. -/
def enqueueIn (qsize : ℕ) (st : InQueue) (x : ℕ) : InQueue :=
  if qsize ≤ st.q.length then { st with overflowed := true }
  else { st with q := st.q ++ [x] }

/-- Result of `Device::read`. -/
inductive ReadResult where
  | ok (samples : List ℕ)       -- count read, returned in queue order
  | busyError                   -- std::system_error of EBUSY (overflow report)
  | errCode (code : ℤ)          -- a plain negative error return
  deriving DecidableEq, Repr

/-- Modelled from the spec: `Device::read` (pure virtual at libsmu.hpp line
315).  If overflows occurred since the previous read this is reported as
the distinguished EBUSY fault (clearing the flag for the next read);
otherwise up to `n` samples are drained from the queue front in FIFO
order. -/
def deviceRead (st : InQueue) (n : ℕ) : ReadResult × InQueue :=
  if st.overflowed then
    (.busyError, { st with overflowed := false })
  else
    (.ok (st.q.take n), { st with q := st.q.drop n })

/-! ## Timeout semantics of read/write (libsmu.hpp lines 307-325)

Both methods are pure virtual; the header documents
`If 0 (the default), return immediately`.  Time is modelled in discrete
milliseconds: `avail t` is the number of samples transferable (readable
resp. writable) at millisecond `t` after the call. -/

/-- Poll the queue from time `t` with `rem` milliseconds left before the
deadline; return the transferred count and the return time. -/
def pollQueue (avail : ℕ → ℕ) : ℕ → ℕ → ℕ × ℕ
  | t, 0 => (avail t, t)
  | t, rem + 1 => if 0 < avail t then (avail t, t) else pollQueue avail (t + 1) rem

/-- Modelled from the spec: the blocking behaviour of `Device::read` /
`Device::write` with a millisecond timeout (implementations not in src).
With `timeout = 0` the call samples the queue once and returns; with a
positive timeout it returns as soon as something is transferable, at the
latest at the deadline. -/
def transferWithTimeout (avail : ℕ → ℕ) (timeout : ℕ) : ℕ × ℕ :=
  pollQueue avail 0 timeout

/-! ## Session device sets and Session::add (libsmu.hpp lines 117-144) -/

/-- The session's device sets: `m_available_devices`, `m_devices` (active
set) and whether a capture is running.  Devices are identified by stamps. -/
structure SessionSets where
  m_available_devices : List ℕ
  m_devices : List ℕ
  capturing : Bool
  deriving DecidableEq, Repr

/-- Modelled from the spec: `Session::add` (declared at libsmu.hpp line
144, body not in src).  Fails returning NULL, leaving the sets untouched,
if the device is not available or the session is capturing; on success the
device joins the active set (a `std::set`, so no duplicates) and is
returned. -/
def sessionAdd (s : SessionSets) (d : ℕ) : Option ℕ × SessionSets :=
  if s.capturing || !(s.m_available_devices.contains d) then (none, s)
  else (some d,
    { s with m_devices :=
        if s.m_devices.contains d then s.m_devices else s.m_devices ++ [d] })

/-! ## Device::write_calibration (libsmu.hpp lines 356-362)

The concrete per-revision implementation (and the Python binding that
raises) is not in src; modelled from the spec. -/

/-- The calibration fault class surfaced to Python: a ValueError for a
malformed file, a RuntimeError for a rejected write — a type apart from
the integer transport codes. -/
inductive CalFault where
  | valueError
  | runtimeError
  deriving DecidableEq, Repr

/-- A calibration file, abstracted to its blocks of (measured, reference)
rational pairs. -/
abbrev CalFile : Type := List (List (ℚ × ℚ))

/-- Modelled from the spec: well-formedness of a calibration file — eight
blocks in the fixed enumeration order, each of 2-3 value pairs. -/
def parseCalFile (f : CalFile) : Option CalFile :=
  if f.length = 8 ∧ ∀ b ∈ f, 2 ≤ b.length ∧ b.length ≤ 3 then some f else none

/-- The factory-default calibration: identity pairs for every block, as
produced by the CLI's template (pysmu lines 104-113). -/
def factoryCal : CalFile :=
  List.replicate 8 [(0, 0), (1, 1)]

/-- Modelled from the spec: `Device::write_calibration` as surfaced to
Python (libsmu.hpp line 362 declares it; the concrete body is not in src).
No path resets to the factory defaults; a malformed file raises a
ValueError; a write the device rejects raises a RuntimeError; otherwise
the parsed triples become the stored calibration. -/
def write_calibration (deviceAccepts : Bool) (path : Option CalFile) :
    Except CalFault CalFile :=
  match path with
  | none => .ok factoryCal
  | some f =>
    match parseCalFile f with
    | none => .error .valueError
    | some d => if deviceAccepts then .ok d else .error .runtimeError

end Libsmu

/-! ## Helper lemmas -/

namespace Libsmu

theorem xferStep_req (s : CaptureState) (e : XferEvent) :
    (xferStep s e).m_requested_sampleno = s.m_requested_sampleno := by
  cases e <;> rfl

theorem xferStep_le (s : CaptureState) (e : XferEvent)
    (hn : s.m_requested_sampleno ≠ 0)
    (hin : s.m_in_sampleno ≤ s.m_requested_sampleno)
    (hout : s.m_out_sampleno ≤ s.m_requested_sampleno) :
    (xferStep s e).m_in_sampleno ≤ s.m_requested_sampleno ∧
    (xferStep s e).m_out_sampleno ≤ s.m_requested_sampleno := by
  cases e with
  | recv k =>
    refine ⟨?_, hout⟩
    simp only [xferStep, if_neg hn]
    exact min_le_right _ _
  | send k =>
    refine ⟨hin, ?_⟩
    simp only [xferStep, if_neg hn]
    exact min_le_right _ _

theorem foldl_xfer_inv (evs : List XferEvent) (s : CaptureState)
    (hn : s.m_requested_sampleno ≠ 0)
    (hin : s.m_in_sampleno ≤ s.m_requested_sampleno)
    (hout : s.m_out_sampleno ≤ s.m_requested_sampleno) :
    (evs.foldl xferStep s).m_requested_sampleno = s.m_requested_sampleno ∧
    (evs.foldl xferStep s).m_in_sampleno ≤ s.m_requested_sampleno ∧
    (evs.foldl xferStep s).m_out_sampleno ≤ s.m_requested_sampleno := by
  induction evs generalizing s with
  | nil => exact ⟨rfl, hin, hout⟩
  | cons e evs ih =>
    have hreq := xferStep_req s e
    obtain ⟨h1, h2⟩ := xferStep_le s e hn hin hout
    have hn' : (xferStep s e).m_requested_sampleno ≠ 0 := by rw [hreq]; exact hn
    have h1' : (xferStep s e).m_in_sampleno ≤ (xferStep s e).m_requested_sampleno := by
      rw [hreq]; exact h1
    have h2' : (xferStep s e).m_out_sampleno ≤ (xferStep s e).m_requested_sampleno := by
      rw [hreq]; exact h2
    have h := ih (xferStep s e) hn' h1' h2'
    rw [hreq] at h
    simpa using h

theorem pollQueue_spec (avail : ℕ → ℕ) (rem : ℕ) : ∀ t : ℕ,
    (pollQueue avail t rem).2 ≤ t + rem ∧
    (pollQueue avail t rem).1 = avail (pollQueue avail t rem).2 ∧
    (∀ u, t ≤ u → u ≤ t + rem → 0 < avail u → 0 < (pollQueue avail t rem).1) := by
  induction rem with
  | zero =>
    intro t
    refine ⟨Nat.le_add_right t 0, rfl, ?_⟩
    intro u h1 h2 h3
    have hu : u = t := le_antisymm (by omega) h1
    subst hu
    exact h3
  | succ rem ih =>
    intro t
    by_cases h : 0 < avail t
    · have he : pollQueue avail t (rem + 1) = (avail t, t) := by
        simp only [pollQueue, if_pos h]
      rw [he]
      exact ⟨by omega, rfl, fun u _ _ _ => h⟩
    · have he : pollQueue avail t (rem + 1) = pollQueue avail (t + 1) rem := by
        simp only [pollQueue, if_neg h]
      rw [he]
      obtain ⟨ha, hb, hc⟩ := ih (t + 1)
      refine ⟨by omega, hb, ?_⟩
      intro u h1 h2 h3
      have h1' : t + 1 ≤ u := by
        rcases Nat.eq_or_lt_of_le h1 with he | hl
        · exact absurd (he ▸ h3) h
        · exact hl
      exact hc u h1' (by omega) h3

theorem sessionStep_mono (c : ℕ) (e : SessionEvent)
    (h : e ≠ SessionEvent.startSuccess) : c ≤ sessionStep c e := by
  cases e with
  | startSuccess => exact absurd rfl h
  | cancelReq => exact Nat.le_succ c
  | stopSuccess => exact le_refl c
  | otherOp => exact le_refl c

theorem foldl_session_mono (evs : List SessionEvent) (c : ℕ)
    (h : SessionEvent.startSuccess ∉ evs) : c ≤ evs.foldl sessionStep c := by
  induction evs generalizing c with
  | nil => exact le_refl c
  | cons e evs ih =>
    simp only [List.mem_cons, not_or] at h
    exact le_trans (sessionStep_mono c e (fun he => h.1 he.symm)) (ih _ h.2)

theorem foldl_session_nocancel (evs : List SessionEvent)
    (h : SessionEvent.cancelReq ∉ evs) : evs.foldl sessionStep 0 = 0 := by
  induction evs with
  | nil => rfl
  | cons e evs ih =>
    simp only [List.mem_cons, not_or] at h
    have hstep : sessionStep 0 e = 0 := by
      cases e with
      | cancelReq => exact absurd rfl h.1
      | startSuccess => rfl
      | stopSuccess => rfl
      | otherOp => rfl
    rw [List.foldl_cons, hstep]
    exact ih h.2

end Libsmu

/-! ## Claim theorems -/

namespace Libsmu

/-- C1: during a capture with a non-zero request, `m_in_sampleno` and
`m_out_sampleno` never exceed `m_requested_sampleno`, and the device's
capture is complete exactly when both counters have reached the requested
target. -/
theorem capture_counter_invariant (n : ℕ) (evs : List XferEvent) (hn : n ≠ 0) :
    (runCapture n evs).m_in_sampleno ≤ n ∧
    (runCapture n evs).m_out_sampleno ≤ n ∧
    (captureDone (runCapture n evs) = true ↔
      (runCapture n evs).m_in_sampleno = n ∧
      (runCapture n evs).m_out_sampleno = n) := by
  obtain ⟨hreq, hin, hout⟩ :=
    foldl_xfer_inv evs (captureStart n) hn (Nat.zero_le _) (Nat.zero_le _)
  have hreq' : (runCapture n evs).m_requested_sampleno = n := hreq
  have hin' : (runCapture n evs).m_in_sampleno ≤ n := hin
  have hout' : (runCapture n evs).m_out_sampleno ≤ n := hout
  refine ⟨hin', hout', ?_⟩
  constructor
  · intro hd
    simp only [captureDone, Bool.and_eq_true, bne_iff_ne, ne_eq,
      decide_eq_true_eq, hreq'] at hd
    exact ⟨le_antisymm hin' hd.1.2, le_antisymm hout' hd.2⟩
  · intro ⟨h1, h2⟩
    simp only [captureDone, Bool.and_eq_true, bne_iff_ne, ne_eq,
      decide_eq_true_eq, hreq', h1, h2]
    exact ⟨⟨hn, le_refl n⟩, le_refl n⟩

theorem capture_counter_invariant_witness :
    (runCapture 3 [XferEvent.recv 5, XferEvent.send 2,
      XferEvent.send 2]).m_in_sampleno ≤ 3 ∧
    (runCapture 3 [XferEvent.recv 5, XferEvent.send 2,
      XferEvent.send 2]).m_out_sampleno ≤ 3 ∧
    (captureDone (runCapture 3 [XferEvent.recv 5, XferEvent.send 2,
      XferEvent.send 2]) = true ↔
      (runCapture 3 [XferEvent.recv 5, XferEvent.send 2,
        XferEvent.send 2]).m_in_sampleno = 3 ∧
      (runCapture 3 [XferEvent.recv 5, XferEvent.send 2,
        XferEvent.send 2]).m_out_sampleno = 3) :=
  capture_counter_invariant 3
    [XferEvent.recv 5, XferEvent.send 2, XferEvent.send 2] (by decide)

/-- C2: `Device::read` reports an inbound-queue overflow as the
distinguished EBUSY fault (distinct from any plain negative return code
and from a successful read), never silently drops the loss, and the
samples it does return are the queue front in submission (FIFO) order. -/
theorem read_overflow_semantics (st : InQueue) (n qsize x : ℕ) :
    (st.overflowed = true → (deviceRead st n).1 = ReadResult.busyError) ∧
    (st.overflowed = false →
      (deviceRead st n).1 = ReadResult.ok (st.q.take n) ∧
      st.q.take n ++ st.q.drop n = st.q) ∧
    (qsize ≤ st.q.length →
      (deviceRead (enqueueIn qsize st x) n).1 = ReadResult.busyError) ∧
    (∀ c : ℤ, ReadResult.busyError ≠ ReadResult.errCode c) ∧
    (∀ l : List ℕ, ReadResult.busyError ≠ ReadResult.ok l) := by
  refine ⟨?_, ?_, ?_, ?_, ?_⟩
  · intro h
    simp [deviceRead, h]
  · intro h
    exact ⟨by simp [deviceRead, h], List.take_append_drop n st.q⟩
  · intro h
    simp [enqueueIn, deviceRead, if_pos h]
  · intro c hc
    exact ReadResult.noConfusion hc
  · intro l hl
    exact ReadResult.noConfusion hl

theorem read_overflow_semantics_witness :
    (deviceRead ⟨[7, 8], true⟩ 1).1 = ReadResult.busyError ∧
    (deviceRead ⟨[7, 8], false⟩ 1).1 = ReadResult.ok ([7, 8].take 1) ∧
    (deviceRead (enqueueIn 2 ⟨[7, 8], false⟩ 9) 1).1 = ReadResult.busyError :=
  ⟨(read_overflow_semantics ⟨[7, 8], true⟩ 1 2 9).1 rfl,
   ((read_overflow_semantics ⟨[7, 8], false⟩ 1 2 9).2.1 rfl).1,
   (read_overflow_semantics ⟨[7, 8], false⟩ 1 2 9).2.2.1 (by decide)⟩

/-- C3: with `timeout = 0`, read/write return immediately (at time 0) with
the count currently transferable, possibly 0; with a positive timeout they
return no later than the deadline, the returned count is the count
available at the return time, and if the queue becomes ready by the
deadline a positive available count is returned rather than a timeout
error. -/
theorem read_write_timeout (avail : ℕ → ℕ) (timeout : ℕ) :
    transferWithTimeout avail 0 = (avail 0, 0) ∧
    (transferWithTimeout avail timeout).2 ≤ timeout ∧
    (transferWithTimeout avail timeout).1 =
      avail (transferWithTimeout avail timeout).2 ∧
    (∀ t, t ≤ timeout → 0 < avail t →
      0 < (transferWithTimeout avail timeout).1) := by
  obtain ⟨ha, hb, hc⟩ := pollQueue_spec avail timeout 0
  exact ⟨rfl, by simpa using ha, hb,
    fun t h1 h2 => hc t (Nat.zero_le t) (by omega) h2⟩

theorem read_write_timeout_witness :
    transferWithTimeout (fun t => if t = 2 then 5 else 0) 0 = (0, 0) ∧
    (transferWithTimeout (fun t => if t = 2 then 5 else 0) 4).2 ≤ 4 ∧
    0 < (transferWithTimeout (fun t => if t = 2 then 5 else 0) 4).1 :=
  ⟨(read_write_timeout (fun t => if t = 2 then 5 else 0) 0).1,
   (read_write_timeout (fun t => if t = 2 then 5 else 0) 4).2.1,
   (read_write_timeout (fun t => if t = 2 then 5 else 0) 4).2.2.2 2
     (by decide) (by decide)⟩

/-- C4: `cancelled()` is true exactly when `m_cancellation` is non-zero;
once a cancellation has been requested it stays true through any trace of
events that contains no successful `start()`; and it is false on any trace
with no cancellation request — in particular for a session never started,
or started and stopped successfully. -/
theorem cancelled_flag_semantics :
    (∀ c : ℕ, cancelled c = true ↔ c ≠ 0) ∧
    (∀ pre post : List SessionEvent, SessionEvent.startSuccess ∉ post →
      cancelled (runSession (pre ++ SessionEvent.cancelReq :: post)) = true) ∧
    (∀ evs : List SessionEvent, SessionEvent.cancelReq ∉ evs →
      cancelled (runSession evs) = false) := by
  refine ⟨?_, ?_, ?_⟩
  · intro c
    simp [cancelled]
  · intro pre post hpost
    rw [runSession, List.foldl_append, List.foldl_cons]
    have hmono := foldl_session_mono post
      (sessionStep (List.foldl sessionStep 0 pre) SessionEvent.cancelReq) hpost
    have hpos : 0 < sessionStep (List.foldl sessionStep 0 pre)
        SessionEvent.cancelReq := Nat.succ_pos _
    simp only [cancelled, bne_iff_ne, ne_eq]
    omega
  · intro evs hevs
    rw [runSession, foldl_session_nocancel evs hevs]
    rfl

theorem cancelled_flag_semantics_witness :
    cancelled 2 = true ∧
    cancelled (runSession [SessionEvent.otherOp, SessionEvent.cancelReq,
      SessionEvent.stopSuccess]) = true ∧
    cancelled (runSession [SessionEvent.startSuccess,
      SessionEvent.stopSuccess]) = false :=
  ⟨(cancelled_flag_semantics.1 2).mpr (by decide),
   cancelled_flag_semantics.2.1 [SessionEvent.otherOp]
     [SessionEvent.stopSuccess] (by decide),
   cancelled_flag_semantics.2.2
     [SessionEvent.startSuccess, SessionEvent.stopSuccess] (by decide)⟩

/-- C5: `Session::add` returns the added device on success, and returns
NULL without touching the session state whenever the device is not in the
available list or the session is capturing. -/
theorem session_add_semantics (s : SessionSets) (d : ℕ) :
    (s.capturing = true → sessionAdd s d = (none, s)) ∧
    (s.m_available_devices.contains d = false → sessionAdd s d = (none, s)) ∧
    (s.capturing = false → s.m_available_devices.contains d = true →
      (sessionAdd s d).1 = some d) := by
  refine ⟨?_, ?_, ?_⟩
  · intro h
    simp [sessionAdd, h]
  · intro h
    unfold sessionAdd
    rw [h]
    simp
  · intro h1 h2
    unfold sessionAdd
    rw [h1, h2]
    simp

theorem session_add_semantics_witness :
    sessionAdd ⟨[1, 2], [], true⟩ 1 = (none, ⟨[1, 2], [], true⟩) ∧
    sessionAdd ⟨[1, 2], [], false⟩ 5 = (none, ⟨[1, 2], [], false⟩) ∧
    (sessionAdd ⟨[1, 2], [], false⟩ 1).1 = some 1 :=
  ⟨(session_add_semantics ⟨[1, 2], [], true⟩ 1).1 rfl,
   (session_add_semantics ⟨[1, 2], [], false⟩ 5).2.1 (by decide),
   (session_add_semantics ⟨[1, 2], [], false⟩ 1).2.2 rfl (by decide)⟩

/-- C6: `write_calibration` raises a ValueError when the calibration file
is malformed, a RuntimeError when the device rejects the write — both of
the calibration fault class, apart from integer transport codes — and
resets the calibration to the factory defaults when passed no path. -/
theorem write_calibration_semantics (acc : Bool) (f : CalFile) :
    write_calibration acc none = Except.ok factoryCal ∧
    (parseCalFile f = none →
      write_calibration acc (some f) = Except.error CalFault.valueError) ∧
    (acc = false → parseCalFile f ≠ none →
      write_calibration acc (some f) = Except.error CalFault.runtimeError) := by
  refine ⟨rfl, ?_, ?_⟩
  · intro h
    simp [write_calibration, h]
  · intro hacc h
    obtain ⟨d, hd⟩ : ∃ d, parseCalFile f = some d := by
      cases hp : parseCalFile f with
      | none => exact absurd hp h
      | some d => exact ⟨d, rfl⟩
    simp [write_calibration, hd, hacc]

theorem write_calibration_semantics_witness :
    write_calibration true none = Except.ok factoryCal ∧
    write_calibration true (some []) = Except.error CalFault.valueError ∧
    write_calibration false (some factoryCal) =
      Except.error CalFault.runtimeError :=
  ⟨(write_calibration_semantics true []).1,
   (write_calibration_semantics true []).2.1 (by decide),
   (write_calibration_semantics false factoryCal).2.2 rfl (by decide)⟩

/-- C7: a device is supported exactly when its (vendor ID, product ID)
pair is an entry of the fixed `SUPPORTED_DEVICES` allow-list, and the
SAM-BA bootloader allow-list is disjoint from it. -/
theorem supported_device_allowlists :
    (∀ vid pid : ℕ,
      is_supported vid pid = true ↔ [vid, pid] ∈ SUPPORTED_DEVICES) ∧
    (∀ e, e ∈ SUPPORTED_DEVICES → e ∉ SAMBA_DEVICES) := by
  refine ⟨?_, by decide⟩
  intro vid pid
  simp [is_supported, List.any_eq_true]

theorem supported_device_allowlists_witness :
    is_supported 0x0456 0xcee2 = true ∧
    [0x0456, 0xcee2] ∉ SAMBA_DEVICES :=
  ⟨(supported_device_allowlists.1 0x0456 0xcee2).mpr (by decide),
   supported_device_allowlists.2 [0x0456, 0xcee2] (by decide)⟩

/-- C10: the default per-device queue depth of 10000 samples divided by
the base default sample rate of 100000 samples per second is exactly
0.1 seconds. -/
theorem default_queue_depth_100ms :
    (m_queue_size : ℚ) / (get_default_rate : ℚ) = 1 / 10 := by
  norm_num [m_queue_size, get_default_rate]

end Libsmu

namespace Pysmu

/-- C8: contrary to the claim, a pysmu invocation that passes the
device-count checks never reaches an operation: with exactly one supported
device attached the script evaluates `options.write`, an attribute the
argparse namespace does not define, and crashes with an AttributeError
instead of exiting 0 after a confirmation.  The zero-device and
multiple-device checks do exit 1 with a diagnostic on standard error as
claimed. -/
theorem pysmu_main_behaviour :
    pysmu_main 0 defaultOptions = Outcome.exited 1 true ∧
    pysmu_main 2 defaultOptions = Outcome.exited 1 true ∧
    pysmu_main 1 defaultOptions = Outcome.crashed "AttributeError" :=
  ⟨rfl, rfl, rfl⟩

/-- C9: `get_value` survives any run of malformed (non-convertible)
operator entries: it re-prompts past every ValueError and returns the
first valid floating-point value entered. -/
theorem get_value_skips_invalid (bad : ℕ) (v : ℚ) (rest : List (Option ℚ)) :
    get_value (List.replicate bad none ++ some v :: rest) = some v := by
  induction bad with
  | zero => rfl
  | succ b ih =>
    rw [List.replicate_succ, List.cons_append]
    exact ih

end Pysmu
